import Mathlib

/-!
Verification of the cashless-backend HTTP service (`src/server.js`).

The server is an Express application over MongoDB with three collections
(`huespedes`, `transacciones`, `productos`).  We shallowly embed the data
model and every route handler: a MongoDB document is an association list of
field names to BSON-like values, a database is the triple of collections,
and each Express handler becomes a pure function from the (possibly absent)
database connection and the request data to a `Response` and the new
database state.  `new Date()` is modelled by an abstract clock tick passed
to the handler; `Date.toISOString()` by an injective rendering of the tick.
-/

namespace Cashless

/-- BSON-like values stored in documents.  `oid` models a driver `ObjectId`
(identified by its 24-character hex string), `date` a JS `Date` (clock tick),
`str` a JS string, `num` a number, `null` the JSON null. -/
inductive JsonVal where
  | null
  | bool (b : Bool)
  | num (n : Int)
  | str (s : String)
  | oid (s : String)
  | date (t : Nat)
  deriving DecidableEq, Repr

/-- A MongoDB document / parsed JSON body: an association list from field
names to values.  JSON objects have unique keys; operations below read the
first occurrence of a key. -/
abbrev Doc := List (String × JsonVal)

/-- Field lookup: the value of field `k` in document `d`, or `none` when the
field is absent (JS `undefined`). -/
def getField (d : Doc) (k : String) : Option JsonVal :=
  match d with
  | [] => none
  | (k₀, v) :: rest => if k₀ = k then some v else getField rest k

/-- Remove every binding of field `k` (JS rest-destructuring `{ _id, ...rest }`
drops the key). -/
def eraseField (d : Doc) (k : String) : Doc :=
  d.filter (fun p => !decide (p.1 = k))

/-- Write field `k` to value `v`, as a JS object-spread override or a `$set`
of one field: extensionally, `k` now maps to `v` and all other fields keep
their values. -/
def setField (d : Doc) (k : String) (v : JsonVal) : Doc :=
  eraseField d k ++ [(k, v)]

/-- Apply a `$set` update document: write each field of `upd` in order onto
`d` (later bindings win, as in a JS object literal). -/
def applySet (d : Doc) (upd : Doc) : Doc :=
  upd.foldl (fun acc p => setField acc p.1 p.2) d

/-- JS nullish coalescing `x ?? dflt`: the default applies exactly when the
value is `undefined` (absent) or `null`. -/
def coalesce (v : Option JsonVal) (dflt : JsonVal) : JsonVal :=
  match v with
  | none => dflt
  | some JsonVal.null => dflt
  | some x => x

/-- Hexadecimal digit test, for `ObjectId` validity. -/
def isHexChar (c : Char) : Bool :=
  c.isDigit || ('a' ≤ c && c ≤ 'f') || ('A' ≤ c && c ≤ 'F')

/-- `new ObjectId(s)` succeeds exactly on 24-character hex strings; on any
other string the BSON constructor throws. -/
def isValidObjectId (s : String) : Bool :=
  s.length == 24 && s.toList.all isHexChar

/-- The filter `{ _id: new ObjectId(id) }`: the document's `_id` equals the
given object id. -/
def matchesId (id : String) (d : Doc) : Bool :=
  decide (getField d "_id" = some (JsonVal.oid id))

/-- The filter `{ activo: true }`. -/
def activeP (d : Doc) : Bool :=
  decide (getField d "activo" = some (JsonVal.bool true))

/-- Models `new Date(tick).toISOString()` as an injective rendering of the
clock tick. -/
def isoOfTime (t : Nat) : String :=
  toString t


/-- Key type for MongoDB sort comparison: a type rank (BSON cross-type
ordering) followed by a numeric and a string component, compared
lexicographically. -/
abbrev SKey := Lex (Nat × Lex (Int × String))

/-- The BSON comparison key of a (possibly absent) field value.  A missing
field sorts together with `null`; numbers, strings, object ids, booleans and
dates each compare within their own type and are ranked against the other
types (the BSON type bracket order). -/
def sortKey : Option JsonVal → SKey
  | none => toLex (0, toLex (0, ""))
  | some JsonVal.null => toLex (0, toLex (0, ""))
  | some (JsonVal.num n) => toLex (1, toLex (n, ""))
  | some (JsonVal.str s) => toLex (2, toLex (0, s))
  | some (JsonVal.oid s) => toLex (3, toLex (0, s))
  | some (JsonVal.bool b) => toLex (4, toLex (if b then 1 else 0, ""))
  | some (JsonVal.date t) => toLex (5, toLex ((t : Int), ""))

/-- The sort key of field `k` of a document. -/
def fieldKey (k : String) (d : Doc) : SKey :=
  sortKey (getField d k)

/-- `.sort(\x7b categoria: 1, nombre: 1 \x7d)`: ascending by category, ties
broken ascending by name. -/
def ProdLe (a b : Doc) : Prop :=
  toLex (fieldKey "categoria" a, fieldKey "nombre" a)
    ≤ toLex (fieldKey "categoria" b, fieldKey "nombre" b)

/-- `.sort(\x7b fechaRegistro: -1 \x7d)`: descending by registration date. -/
def RegDesc (a b : Doc) : Prop :=
  fieldKey "fechaRegistro" b ≤ fieldKey "fechaRegistro" a

/-- `.sort(\x7b fecha: -1 \x7d)`: descending by transaction date. -/
def FechaDesc (a b : Doc) : Prop :=
  fieldKey "fecha" b ≤ fieldKey "fecha" a

instance : DecidableRel ProdLe :=
  fun a b => inferInstanceAs (Decidable (_ ≤ _))

instance : DecidableRel RegDesc :=
  fun a b => inferInstanceAs (Decidable (_ ≤ _))

instance : DecidableRel FechaDesc :=
  fun a b => inferInstanceAs (Decidable (_ ≤ _))

instance : IsTotal Doc ProdLe :=
  ⟨fun a b => le_total (toLex (fieldKey "categoria" a, fieldKey "nombre" a)) _⟩

instance : IsTrans Doc ProdLe :=
  ⟨fun _ _ _ hab hbc => le_trans hab hbc⟩

instance : IsTotal Doc RegDesc :=
  ⟨fun a b => le_total (fieldKey "fechaRegistro" b) (fieldKey "fechaRegistro" a)⟩

instance : IsTrans Doc RegDesc :=
  ⟨fun _ _ _ hab hbc => le_trans hbc hab⟩

instance : IsTotal Doc FechaDesc :=
  ⟨fun a b => le_total (fieldKey "fecha" b) (fieldKey "fecha" a)⟩

instance : IsTrans Doc FechaDesc :=
  ⟨fun _ _ _ hab hbc => le_trans hbc hab⟩

/-- The three collections of the `cashless_db` database. -/
structure DB where
  huespedes : List Doc
  transacciones : List Doc
  productos : List Doc
  deriving DecidableEq, Repr

/-- The JSON body of a response, by shape: a single document, an array of
documents, an error envelope, a write envelope with the inserted id, or the
ping success envelope. -/
inductive RespBody where
  | doc (d : Doc)
  | docs (l : List Doc)
  | err (msg : String)
  | writeOk (id : Option JsonVal) (msg : String)
  | pingOk (t : Nat)
  deriving DecidableEq, Repr

/-- An HTTP response: status code and JSON body. -/
structure Response where
  status : Nat
  body : RespBody
  deriving DecidableEq, Repr

/-- `findOne` on a collection: the first document matching the filter. -/
def findOne (l : List Doc) (p : Doc → Bool) : Option Doc :=
  l.find? p

/-- `updateOne` with a `$set` document: apply the update to the first
matching document, returning `matchedCount` and the updated collection. -/
def updateFirst (l : List Doc) (p : Doc → Bool) (upd : Doc) : Nat × List Doc :=
  match l with
  | [] => (0, [])
  | d :: ds =>
      if p d then (1, applySet d upd :: ds)
      else
        let r := updateFirst ds p upd
        (r.1, d :: r.2)

/-- `insertOne` id assignment: the driver generates a fresh `ObjectId` only
when the document carries no `_id` of its own. -/
def insertWithId (d : Doc) (newId : String) : Doc :=
  if getField d "_id" = none then setField d "_id" (JsonVal.oid newId) else d

/-- The `defaultProductos` array of `server.js`: the ten products seeded
into an empty catalog. -/
def defaultProductos : List Doc :=
  [ [("nombre", JsonVal.str "Hamburguesa Clásica"), ("precio", JsonVal.num 150),
     ("categoria", JsonVal.str "alimentos"), ("icono", JsonVal.str "🍔"),
     ("activo", JsonVal.bool true)],
    [("nombre", JsonVal.str "Pizza Margarita"), ("precio", JsonVal.num 180),
     ("categoria", JsonVal.str "alimentos"), ("icono", JsonVal.str "🍕"),
     ("activo", JsonVal.bool true)],
    [("nombre", JsonVal.str "Ensalada Caesar"), ("precio", JsonVal.num 120),
     ("categoria", JsonVal.str "alimentos"), ("icono", JsonVal.str "🥗"),
     ("activo", JsonVal.bool true)],
    [("nombre", JsonVal.str "Cerveza Corona"), ("precio", JsonVal.num 60),
     ("categoria", JsonVal.str "bebidas"), ("icono", JsonVal.str "🍺"),
     ("activo", JsonVal.bool true)],
    [("nombre", JsonVal.str "Margarita"), ("precio", JsonVal.num 120),
     ("categoria", JsonVal.str "bebidas"), ("icono", JsonVal.str "🍹"),
     ("activo", JsonVal.bool true)],
    [("nombre", JsonVal.str "Agua Mineral"), ("precio", JsonVal.num 35),
     ("categoria", JsonVal.str "bebidas"), ("icono", JsonVal.str "💧"),
     ("activo", JsonVal.bool true)],
    [("nombre", JsonVal.str "Café Americano"), ("precio", JsonVal.num 45),
     ("categoria", JsonVal.str "bebidas"), ("icono", JsonVal.str "☕"),
     ("activo", JsonVal.bool true)],
    [("nombre", JsonVal.str "Renta Kayak 1hr"), ("precio", JsonVal.num 200),
     ("categoria", JsonVal.str "deportes"), ("icono", JsonVal.str "🚣"),
     ("activo", JsonVal.bool true)],
    [("nombre", JsonVal.str "Tabla Paddle 1hr"), ("precio", JsonVal.num 250),
     ("categoria", JsonVal.str "deportes"), ("icono", JsonVal.str "🏄"),
     ("activo", JsonVal.bool true)],
    [("nombre", JsonVal.str "Masaje Relajante"), ("precio", JsonVal.num 450),
     ("categoria", JsonVal.str "spa"), ("icono", JsonVal.str "💆"),
     ("activo", JsonVal.bool true)] ]

/-- `ensureProductosSeeded`: no-op without a database; otherwise counts the
`productos` collection and, exactly when the count is zero, inserts the ten
default products with fresh `createdAt`/`updatedAt` timestamps. -/
def ensureProductosSeeded (db? : Option DB) (now : Nat) : Option DB :=
  match db? with
  | none => none
  | some db =>
      if db.productos.length = 0 then
        some { db with
          productos := db.productos ++ defaultProductos.map (fun producto =>
            setField (setField producto "createdAt" (JsonVal.date now))
              "updatedAt" (JsonVal.date now)) }
      else some db

/-- `connectDB`: an empty (falsy) `MONGODB_URI` leaves the process without a
database (`db` stays undefined); otherwise the connection is established and
the catalog seeded.  Connection failures are likewise swallowed, leaving the
degraded state. -/
def connectDB (uri : String) (store : DB) (now : Nat) : Option DB :=
  if uri = "" then none
  else ensureProductosSeeded (some store) now

/-- `GET /api/huespedes`: active guests, newest registration first.  With no
database, `db.collection` throws and the catch answers 500. -/
def getHuespedesHandler (db? : Option DB) : Response :=
  match db? with
  | none => ⟨500, RespBody.err "Error al obtener huéspedes"⟩
  | some db =>
      ⟨200, RespBody.docs (List.insertionSort RegDesc (db.huespedes.filter activeP))⟩

/-- `GET /api/huespedes/:id`: point lookup by `ObjectId`.  A malformed id
makes the `ObjectId` constructor throw, which the catch turns into a 500. -/
def getHuespedByIdHandler (db? : Option DB) (id : String) : Response :=
  match db? with
  | none => ⟨500, RespBody.err "Error al obtener huésped"⟩
  | some db =>
      if isValidObjectId id then
        match findOne db.huespedes (matchesId id) with
        | none => ⟨404, RespBody.err "Huésped no encontrado"⟩
        | some huesped => ⟨200, RespBody.doc huesped⟩
      else ⟨500, RespBody.err "Error al obtener huésped"⟩

/-- The document stored by `POST /api/huespedes`:
`\x7b ...req.body, fechaRegistro: new Date().toISOString(), activo: true,
createdAt: new Date() \x7d`. -/
def nuevoHuesped (body : Doc) (now : Nat) : Doc :=
  setField (setField (setField body
    "fechaRegistro" (JsonVal.str (isoOfTime now)))
    "activo" (JsonVal.bool true))
    "createdAt" (JsonVal.date now)

/-- `POST /api/huespedes`. -/
def postHuespedHandler (db? : Option DB) (body : Doc) (newId : String) (now : Nat) :
    Response × Option DB :=
  match db? with
  | none => (⟨500, RespBody.err "Error al crear huésped"⟩, none)
  | some db =>
      let inserted := insertWithId (nuevoHuesped body now) newId
      (⟨201, RespBody.writeOk (getField inserted "_id") "Huésped registrado exitosamente"⟩,
       some { db with huespedes := db.huespedes ++ [inserted] })

/-- The `$set` document of `PUT /api/huespedes/:id`: the body minus `_id`,
plus a fresh `updatedAt`. -/
def putSetDoc (body : Doc) (now : Nat) : Doc :=
  setField (eraseField body "_id") "updatedAt" (JsonVal.date now)

/-- `PUT /api/huespedes/:id`. -/
def putHuespedHandler (db? : Option DB) (id : String) (body : Doc) (now : Nat) :
    Response × Option DB :=
  match db? with
  | none => (⟨500, RespBody.err "Error al actualizar huésped"⟩, none)
  | some db =>
      if isValidObjectId id then
        let r := updateFirst db.huespedes (matchesId id) (putSetDoc body now)
        if r.1 = 0 then (⟨404, RespBody.err "Huésped no encontrado"⟩, some db)
        else (⟨200, RespBody.writeOk none "Huésped actualizado exitosamente"⟩,
              some { db with huespedes := r.2 })
      else (⟨500, RespBody.err "Error al actualizar huésped"⟩, some db)

/-- `DELETE /api/huespedes/:id` (soft delete):
`$set \x7b activo: false, deletedAt: new Date() \x7d`. -/
def deleteHuespedHandler (db? : Option DB) (id : String) (now : Nat) :
    Response × Option DB :=
  match db? with
  | none => (⟨500, RespBody.err "Error al eliminar huésped"⟩, none)
  | some db =>
      if isValidObjectId id then
        let r := updateFirst db.huespedes (matchesId id)
          [("activo", JsonVal.bool false), ("deletedAt", JsonVal.date now)]
        if r.1 = 0 then (⟨404, RespBody.err "Huésped no encontrado"⟩, some db)
        else (⟨200, RespBody.writeOk none "Huésped eliminado exitosamente"⟩,
              some { db with huespedes := r.2 })
      else (⟨500, RespBody.err "Error al eliminar huésped"⟩, some db)

/-- `GET /api/transacciones`: all transactions, newest `fecha` first. -/
def getTransaccionesHandler (db? : Option DB) : Response :=
  match db? with
  | none => ⟨500, RespBody.err "Error al obtener transacciones"⟩
  | some db =>
      ⟨200, RespBody.docs (List.insertionSort FechaDesc db.transacciones)⟩

/-- `GET /api/transacciones/huesped/:huespedId`: filter `\x7b huespedId \x7d`
(the raw path string), newest `fecha` first. -/
def getTransaccionesByHuespedHandler (db? : Option DB) (huespedId : String) : Response :=
  match db? with
  | none => ⟨500, RespBody.err "Error al obtener transacciones"⟩
  | some db =>
      ⟨200, RespBody.docs (List.insertionSort FechaDesc
        (db.transacciones.filter (fun d =>
          decide (getField d "huespedId" = some (JsonVal.str huespedId)))))⟩

/-- The document stored by `POST /api/transacciones`:
`\x7b ...req.body, fecha: new Date().toISOString(), createdAt: new Date() \x7d`. -/
def nuevaTransaccion (body : Doc) (now : Nat) : Doc :=
  setField (setField body "fecha" (JsonVal.str (isoOfTime now)))
    "createdAt" (JsonVal.date now)

/-- `POST /api/transacciones`. -/
def postTransaccionHandler (db? : Option DB) (body : Doc) (newId : String) (now : Nat) :
    Response × Option DB :=
  match db? with
  | none => (⟨500, RespBody.err "Error al crear transacción"⟩, none)
  | some db =>
      let inserted := insertWithId (nuevaTransaccion body now) newId
      (⟨201, RespBody.writeOk (getField inserted "_id") "Transacción registrada exitosamente"⟩,
       some { db with transacciones := db.transacciones ++ [inserted] })

/-- The filter of `GET /api/productos`: `categoria && categoria !== 'todos'`
selects the category branch only for a present, non-empty (truthy) parameter
different from `todos`; otherwise only `\x7b activo: true \x7d`. -/
def productosFiltro (categoria : Option String) : Doc → Bool :=
  match categoria with
  | some c =>
      if c ≠ "" && c ≠ "todos" then
        fun d => decide (getField d "categoria" = some (JsonVal.str c)) && activeP d
      else activeP
  | none => activeP

/-- `GET /api/productos`: filtered active products, ascending by category
then name. -/
def getProductosHandler (db? : Option DB) (categoria : Option String) : Response :=
  match db? with
  | none => ⟨500, RespBody.err "Error al obtener productos"⟩
  | some db =>
      ⟨200, RespBody.docs (List.insertionSort ProdLe
        (db.productos.filter (productosFiltro categoria)))⟩

/-- The document stored by `POST /api/productos`:
`\x7b ...req.body, activo: req.body.activo ?? true, createdAt, updatedAt \x7d`. -/
def nuevoProducto (body : Doc) (now : Nat) : Doc :=
  setField (setField (setField body
    "activo" (coalesce (getField body "activo") (JsonVal.bool true)))
    "createdAt" (JsonVal.date now))
    "updatedAt" (JsonVal.date now)

/-- `POST /api/productos`. -/
def postProductoHandler (db? : Option DB) (body : Doc) (newId : String) (now : Nat) :
    Response × Option DB :=
  match db? with
  | none => (⟨500, RespBody.err "Error al crear producto"⟩, none)
  | some db =>
      let inserted := insertWithId (nuevoProducto body now) newId
      (⟨201, RespBody.writeOk (getField inserted "_id") "Producto creado exitosamente"⟩,
       some { db with productos := db.productos ++ [inserted] })

/-- `GET /api/ping`: with no database, `db.command` throws and the catch
answers 500 naming MongoDB. -/
def pingHandler (db? : Option DB) (now : Nat) : Response :=
  match db? with
  | none => ⟨500, RespBody.err "Error de conexión a MongoDB"⟩
  | some _ => ⟨200, RespBody.pingOk now⟩

/-- Substring test used to formalise a message naming the database. -/
def isPrefixCharList : List Char → List Char → Bool
  | [], _ => true
  | _ :: _, [] => false
  | a :: as, b :: bs => a = b && isPrefixCharList as bs

/-- Does `needle` occur inside `hay`? -/
def containsCharList (needle : List Char) : List Char → Bool
  | [] => needle.isEmpty
  | c :: rest => isPrefixCharList needle (c :: rest) || containsCharList needle rest

/-- A message names the database unavailability when it mentions MongoDB or
the database (Spanish or English). -/
def namesDatabase (s : String) : Bool :=
  containsCharList "Mongo".toList s.toList
    || containsCharList "mongo".toList s.toList
    || containsCharList "base de datos".toList s.toList
    || containsCharList "database".toList s.toList
    || containsCharList "datos".toList s.toList
    || containsCharList "DB".toList s.toList
    || containsCharList "BD".toList s.toList

/-- Is the field value a string? -/
def isStrVal : Option JsonVal → Bool
  | some (JsonVal.str _) => true
  | _ => false

/-- Is the field value a number? -/
def isNumVal : Option JsonVal → Bool
  | some (JsonVal.num _) => true
  | _ => false

section FieldLemmas

theorem eraseField_cons (k₀ : String) (v : JsonVal) (rest : Doc) (k : String) :
    eraseField ((k₀, v) :: rest) k
      = if k₀ = k then eraseField rest k else (k₀, v) :: eraseField rest k := by
  by_cases h : k₀ = k <;> simp [eraseField, List.filter_cons, h]

theorem getField_append (d₁ d₂ : Doc) (k : String) :
    getField (d₁ ++ d₂) k = (getField d₁ k).orElse (fun _ => getField d₂ k) := by
  induction d₁ with
  | nil => simp [getField]
  | cons p rest ih =>
      obtain ⟨k₀, v⟩ := p
      by_cases h : k₀ = k <;> simp [getField, h, ih]

theorem getField_eraseField_self (d : Doc) (k : String) :
    getField (eraseField d k) k = none := by
  induction d with
  | nil => rfl
  | cons p rest ih =>
      obtain ⟨k₀, v⟩ := p
      rw [eraseField_cons]
      by_cases h : k₀ = k <;> simp [h, getField, ih]

theorem getField_eraseField_ne (d : Doc) (k k' : String) (h : k' ≠ k) :
    getField (eraseField d k) k' = getField d k' := by
  induction d with
  | nil => rfl
  | cons p rest ih =>
      obtain ⟨k₀, v⟩ := p
      rw [eraseField_cons]
      by_cases hk : k₀ = k
      · subst hk
        have hne : ¬ k₀ = k' := fun he => h (he.symm)
        simp [getField, hne, ih]
      · rw [if_neg hk]
        by_cases hk' : k₀ = k' <;> simp [getField, hk', ih]

theorem getField_setField_self (d : Doc) (k : String) (v : JsonVal) :
    getField (setField d k v) k = some v := by
  simp [setField, getField_append, getField_eraseField_self, getField]

theorem getField_setField_ne (d : Doc) (k k' : String) (v : JsonVal) (h : k' ≠ k) :
    getField (setField d k v) k' = getField d k' := by
  rw [setField, getField_append, getField_eraseField_ne d k k' h]
  cases hg : getField d k' with
  | none => simp [getField, Ne.symm h]
  | some w => simp

theorem getField_eq_none_iff (d : Doc) (k : String) :
    getField d k = none ↔ k ∉ d.map Prod.fst := by
  induction d with
  | nil => simp [getField]
  | cons p rest ih =>
      obtain ⟨k₀, v⟩ := p
      by_cases h : k₀ = k
      · subst h
        simp [getField]
      · have h' : ¬ k = k₀ := fun he => h he.symm
        simp [getField, h, h', ih]

theorem getField_applySet_none (d upd : Doc) (k : String)
    (h : getField upd k = none) :
    getField (applySet d upd) k = getField d k := by
  induction upd generalizing d with
  | nil => rfl
  | cons p rest ih =>
      obtain ⟨k₀, v⟩ := p
      have hne : ¬ k₀ = k := by
        intro he
        simp [getField, he] at h
      have hrest : getField rest k = none := by simpa [getField, hne] using h
      show getField (applySet (setField d k₀ v) rest) k = getField d k
      rw [ih _ hrest, getField_setField_ne d k₀ k v (fun he => hne he.symm)]

theorem getField_applySet (d upd : Doc) (k : String)
    (hnd : (upd.map Prod.fst).Nodup) :
    getField (applySet d upd)  k
      = match getField upd k with
        | some v => some v
        | none => getField d k := by
  induction upd generalizing d with
  | nil => rfl
  | cons p rest ih =>
      obtain ⟨k₀, v⟩ := p
      simp only [List.map_cons, List.nodup_cons] at hnd
      show getField (applySet (setField d k₀ v) rest) k = _
      by_cases h : k₀ = k
      · subst h
        have hrest : getField rest k₀ = none :=
          (getField_eq_none_iff rest k₀).mpr hnd.1
        rw [getField_applySet_none _ _ _ hrest, getField_setField_self]
        simp [getField]
      · rw [ih _ hnd.2]
        cases hg : getField rest k with
        | none => simp [getField, h, hg, getField_setField_ne d k₀ k v (fun he => h he.symm)]
        | some w => simp [getField, h, hg]

theorem applySet_append (d u₁ u₂ : Doc) :
    applySet d (u₁ ++ u₂) = applySet (applySet d u₁) u₂ := by
  simp [applySet, List.foldl_append]

end FieldLemmas

section ListLemmas

theorem exists_str_of_isStrVal {v : Option JsonVal} (h : isStrVal v = true) :
    ∃ s, v = some (JsonVal.str s) := by
  match v with
  | some (JsonVal.str s) => exact ⟨s, rfl⟩
  | none | some JsonVal.null | some (JsonVal.bool _) | some (JsonVal.num _)
  | some (JsonVal.oid _) | some (JsonVal.date _) => simp [isStrVal] at h

theorem exists_num_of_isNumVal {v : Option JsonVal} (h : isNumVal v = true) :
    ∃ n, v = some (JsonVal.num n) := by
  match v with
  | some (JsonVal.num n) => exact ⟨n, rfl⟩
  | none | some JsonVal.null | some (JsonVal.bool _) | some (JsonVal.str _)
  | some (JsonVal.oid _) | some (JsonVal.date _) => simp [isNumVal] at h

theorem updateFirst_no_match (l : List Doc) (p : Doc → Bool) (upd : Doc)
    (h : ∀ d ∈ l, p d = false) :
    updateFirst l p upd = (0, l) := by
  induction l with
  | nil => rfl
  | cons d ds ih =>
      have hd := h d (List.mem_cons_self d ds)
      simp only [updateFirst, hd, Bool.false_eq_true, if_false]
      rw [ih (fun x hx => h x (List.mem_cons_of_mem d hx))]

theorem updateFirst_append_left (l₁ l₂ : List Doc) (p : Doc → Bool) (upd : Doc)
    (h : ∀ d ∈ l₁, p d = false) :
    updateFirst (l₁ ++ l₂) p upd
      = ((updateFirst l₂ p upd).1, l₁ ++ (updateFirst l₂ p upd).2) := by
  induction l₁ with
  | nil => simp
  | cons d ds ih =>
      have hd := h d (List.mem_cons_self d ds)
      simp only [List.cons_append, updateFirst, hd, Bool.false_eq_true, if_false,
        List.append_eq]
      rw [ih (fun x hx => h x (List.mem_cons_of_mem d hx))]

theorem updateFirst_split (pre : List Doc) (d : Doc) (post : List Doc)
    (p : Doc → Bool) (upd : Doc)
    (hpre : ∀ x ∈ pre, p x = false) (hd : p d = true) :
    updateFirst (pre ++ d :: post) p upd = (1, pre ++ applySet d upd :: post) := by
  rw [updateFirst_append_left pre (d :: post) p upd hpre]
  simp [updateFirst, hd]

theorem find?_no_match (l : List Doc) (p : Doc → Bool)
    (h : ∀ d ∈ l, p d = false) :
    l.find? p = none := by
  induction l with
  | nil => rfl
  | cons d ds ih =>
      have hd := h d (List.mem_cons_self d ds)
      rw [List.find?_cons, hd]
      exact ih (fun x hx => h x (List.mem_cons_of_mem d hx))

theorem find?_split (pre : List Doc) (d : Doc) (post : List Doc) (p : Doc → Bool)
    (hpre : ∀ x ∈ pre, p x = false) (hd : p d = true) :
    (pre ++ d :: post).find? p = some d := by
  induction pre with
  | nil => simp [List.find?_cons, hd]
  | cons x xs ih =>
      have hx := hpre x (List.mem_cons_self x xs)
      simp only [List.cons_append, List.find?_cons, hx]
      exact ih (fun y hy => hpre y (List.mem_cons_of_mem x hy))

end ListLemmas

/-- C1, counterexample: with no connection string the process serves requests
and `GET /api/huespedes` answers 500, but the body is the generic
`Error al obtener huéspedes`, which does not name the database
unavailability as the claim states. -/
theorem degraded_getHuespedes_does_not_name_database :
    connectDB "" ⟨[], [], []⟩ 0 = none ∧
    getHuespedesHandler none = ⟨500, RespBody.err "Error al obtener huéspedes"⟩ ∧
    namesDatabase "Error al obtener huéspedes" = false := by
  decide

/-- C1 (amended): when the process starts with no connection string, startup
leaves the system without a database and every data-accessing endpoint
responds with a 500-class error carrying a fixed generic message for its
resource — the request is answered rather than crashing the process — but
the message does not name the database unavailability; only `GET /api/ping`
answers 500 with a message naming MongoDB. -/
theorem degraded_mode_data_endpoints_500 (store : DB) (now : Nat)
    (id huespedId newId : String) (body : Doc) (categoria : Option String) :
    connectDB "" store now = none ∧
    getHuespedesHandler none = ⟨500, RespBody.err "Error al obtener huéspedes"⟩ ∧
    getHuespedByIdHandler none id = ⟨500, RespBody.err "Error al obtener huésped"⟩ ∧
    postHuespedHandler none body newId now
      = (⟨500, RespBody.err "Error al crear huésped"⟩, none) ∧
    putHuespedHandler none id body now
      = (⟨500, RespBody.err "Error al actualizar huésped"⟩, none) ∧
    deleteHuespedHandler none id now
      = (⟨500, RespBody.err "Error al eliminar huésped"⟩, none) ∧
    getTransaccionesHandler none
      = ⟨500, RespBody.err "Error al obtener transacciones"⟩ ∧
    getTransaccionesByHuespedHandler none huespedId
      = ⟨500, RespBody.err "Error al obtener transacciones"⟩ ∧
    postTransaccionHandler none body newId now
      = (⟨500, RespBody.err "Error al crear transacción"⟩, none) ∧
    getProductosHandler none categoria
      = ⟨500, RespBody.err "Error al obtener productos"⟩ ∧
    postProductoHandler none body newId now
      = (⟨500, RespBody.err "Error al crear producto"⟩, none) ∧
    pingHandler none now = ⟨500, RespBody.err "Error de conexión a MongoDB"⟩ ∧
    namesDatabase "Error de conexión a MongoDB" = true := by
  refine ⟨?_, rfl, rfl, rfl, rfl, rfl, rfl, rfl, rfl, rfl, rfl, rfl, by decide⟩
  simp [connectDB]

/-- C2, counterexample: the malformed id `xyz` on the guest endpoints is not
answered with a 400 or 404 — the handlers answer 500 with the generic
message, so the id is not validated before use. -/
theorem malformed_id_not_404_cex :
    isValidObjectId "xyz" = false ∧
    getHuespedByIdHandler (some ⟨[], [], []⟩) "xyz"
      = ⟨500, RespBody.err "Error al obtener huésped"⟩ ∧
    (getHuespedByIdHandler (some ⟨[], [], []⟩) "xyz").status ≠ 400 ∧
    (getHuespedByIdHandler (some ⟨[], [], []⟩) "xyz").status ≠ 404 ∧
    (putHuespedHandler (some ⟨[], [], []⟩) "xyz" [] 0).1.status = 500 ∧
    (deleteHuespedHandler (some ⟨[], [], []⟩) "xyz" 0).1.status = 500 := by
  decide

/-- C2 (amended): a request to a guest endpoint whose `:id` is not a
well-formed `ObjectId` is not validated before use; the driver exception is
caught by the handler and converted to a 500 with the handler's fixed
generic message (never a raw driver exception in the response), leaving the
store unchanged — not the 400/404 the claim states. -/
theorem malformed_id_caught_500 (db : DB) (id : String) (body : Doc) (now : Nat)
    (h : isValidObjectId id = false) :
    getHuespedByIdHandler (some db) id
      = ⟨500, RespBody.err "Error al obtener huésped"⟩ ∧
    putHuespedHandler (some db) id body now
      = (⟨500, RespBody.err "Error al actualizar huésped"⟩, some db) ∧
    deleteHuespedHandler (some db) id now
      = (⟨500, RespBody.err "Error al eliminar huésped"⟩, some db) := by
  refine ⟨?_, ?_, ?_⟩ <;>
    simp [getHuespedByIdHandler, putHuespedHandler, deleteHuespedHandler, h]

/-- C2, witness at the malformed id `zz` on an empty store. -/
theorem malformed_id_caught_500_witness :
    getHuespedByIdHandler (some ⟨[], [], []⟩) "zz"
      = ⟨500, RespBody.err "Error al obtener huésped"⟩ :=
  (malformed_id_caught_500 ⟨[], [], []⟩ "zz" [] 0 (by decide)).1

/-- C3: `ensureProductosSeeded` inserts the fixed list of ten default
products — each with a category, an icon, a price, `activo = true` and
fresh `createdAt`/`updatedAt` timestamps — if and only if the product
collection count is exactly zero, leaving the other collections untouched;
invoking it again on the now non-empty (or any non-empty) collection leaves
the database unchanged. -/
theorem ensureProductosSeeded_iff_empty (db : DB) (now now' : Nat) :
    (db.productos.length = 0 →
      ∃ db', ensureProductosSeeded (some db) now = some db' ∧
        db'.huespedes = db.huespedes ∧
        db'.transacciones = db.transacciones ∧
        db'.productos.length = 10 ∧
        (∀ d ∈ db'.productos,
          getField d "activo" = some (JsonVal.bool true) ∧
          (∃ c, getField d "categoria" = some (JsonVal.str c)) ∧
          (∃ i, getField d "icono" = some (JsonVal.str i)) ∧
          (∃ p, getField d "precio" = some (JsonVal.num p)) ∧
          getField d "createdAt" = some (JsonVal.date now) ∧
          getField d "updatedAt" = some (JsonVal.date now)) ∧
        ensureProductosSeeded (some db') now' = some db') ∧
    (db.productos.length ≠ 0 → ensureProductosSeeded (some db) now = some db) := by
  constructor
  · intro h0
    have hemp : db.productos = [] := List.length_eq_zero.mp h0
    have hseed : ensureProductosSeeded (some db) now
        = some { db with productos := db.productos ++ defaultProductos.map (fun producto =>
            setField (setField producto "createdAt" (JsonVal.date now))
              "updatedAt" (JsonVal.date now)) } := by
      simp [ensureProductosSeeded, h0]
    have hlen : ({ db with productos := db.productos ++ defaultProductos.map (fun producto =>
        setField (setField producto "createdAt" (JsonVal.date now))
          "updatedAt" (JsonVal.date now)) } : DB).productos.length = 10 := by
      simp [hemp, List.length_map, defaultProductos]
    refine ⟨_, hseed, rfl, rfl, hlen, ?_, ?_⟩
    · intro d hd
      simp only [hemp, List.nil_append, List.mem_map] at hd
      obtain ⟨p, hp, rfl⟩ := hd
      have hall : ∀ q ∈ defaultProductos,
          getField q "activo" = some (JsonVal.bool true) ∧
          isStrVal (getField q "categoria") = true ∧
          isStrVal (getField q "icono") = true ∧
          isNumVal (getField q "precio") = true := by decide
      obtain ⟨hact, hcat, hico, hpre⟩ := hall p hp
      refine ⟨?_, ?_, ?_, ?_, ?_, ?_⟩
      · rw [getField_setField_ne _ _ _ _ (by decide),
          getField_setField_ne _ _ _ _ (by decide)]
        exact hact
      · rw [getField_setField_ne _ _ _ _ (by decide),
          getField_setField_ne _ _ _ _ (by decide)]
        exact exists_str_of_isStrVal hcat
      · rw [getField_setField_ne _ _ _ _ (by decide),
          getField_setField_ne _ _ _ _ (by decide)]
        exact exists_str_of_isStrVal hico
      · rw [getField_setField_ne _ _ _ _ (by decide),
          getField_setField_ne _ _ _ _ (by decide)]
        exact exists_num_of_isNumVal hpre
      · rw [getField_setField_ne _ _ _ _ (by decide), getField_setField_self]
      · rw [getField_setField_self]
    · simp [ensureProductosSeeded, hlen]
  · intro hne
    simp [ensureProductosSeeded, hne]

/-- C3, witness: seeding the empty database yields a ten-product catalog. -/
theorem ensureProductosSeeded_iff_empty_witness :
    (ensureProductosSeeded (some ⟨[], [], []⟩) 4).map
      (fun db => db.productos.length) = some 10 := by
  obtain ⟨db', hseed, -, -, hlen, -, -⟩ :=
    (ensureProductosSeeded_iff_empty ⟨[], [], []⟩ 4 9).1 rfl
  rw [hseed]
  simpa using hlen

/-- C4: on `PUT /api/huespedes/:id` with a body containing `_id`, the `_id`
is stripped before the update: on the matched document, `updatedAt` is set
to the server date and each remaining body field to its body value, while
`_id` and every field outside the body keep their stored values; the other
documents are untouched. -/
theorem put_strips_id_and_frames (db : DB) (id : String) (body : Doc) (now : Nat)
    (pre post : List Doc) (d : Doc)
    (hvalid : isValidObjectId id = true)
    (hnodup : (body.map Prod.fst).Nodup)
    (hasid : "_id" ∈ body.map Prod.fst)
    (hsplit : db.huespedes = pre ++ d :: post)
    (hpre : ∀ x ∈ pre, matchesId id x = false)
    (hd : matchesId id d = true) :
    ∃ d', putHuespedHandler (some db) id body now
        = (⟨200, RespBody.writeOk none "Huésped actualizado exitosamente"⟩,
           some { db with huespedes := pre ++ d' :: post }) ∧
      getField d' "_id" = getField d "_id" ∧
      getField d' "updatedAt" = some (JsonVal.date now) ∧
      (∀ k, k ≠ "_id" → k ≠ "updatedAt" →
        getField d' k = match getField body k with
          | some v => some v
          | none => getField d k) := by
  have hupd : updateFirst db.huespedes (matchesId id) (putSetDoc body now)
      = (1, pre ++ applySet d (putSetDoc body now) :: post) := by
    rw [hsplit]
    exact updateFirst_split pre d post _ _ hpre hd
  refine ⟨applySet d (putSetDoc body now), ?_, ?_, ?_, ?_⟩
  · simp [putHuespedHandler, hvalid, hupd]
  · show getField (applySet d (eraseField (eraseField body "_id") "updatedAt"
        ++ [("updatedAt", JsonVal.date now)])) "_id" = getField d "_id"
    rw [applySet_append]
    show getField (setField _ "updatedAt" (JsonVal.date now)) "_id" = _
    rw [getField_setField_ne _ _ _ _ (by decide)]
    rw [getField_applySet_none]
    rw [getField_eraseField_ne _ _ _ (by decide), getField_eraseField_self]
  · show getField (applySet d (eraseField (eraseField body "_id") "updatedAt"
        ++ [("updatedAt", JsonVal.date now)])) "updatedAt" = some (JsonVal.date now)
    rw [applySet_append]
    exact getField_setField_self _ _ _
  · intro k hkid hkupd
    show getField (applySet d (eraseField (eraseField body "_id") "updatedAt"
        ++ [("updatedAt", JsonVal.date now)])) k = _
    rw [applySet_append]
    show getField (setField _ "updatedAt" (JsonVal.date now)) k = _
    rw [getField_setField_ne _ _ _ _ hkupd]
    have hnd : ((eraseField (eraseField body "_id") "updatedAt").map Prod.fst).Nodup := by
      have hsub : List.Sublist (eraseField (eraseField body "_id") "updatedAt") body :=
        List.Sublist.trans (List.filter_sublist _) (List.filter_sublist _)
      exact hnodup.sublist (hsub.map Prod.fst)
    rw [getField_applySet _ _ _ hnd]
    rw [getField_eraseField_ne _ _ _ hkupd, getField_eraseField_ne _ _ _ hkid]

/-- C4, witness: updating the single stored guest with a body carrying a
foreign `_id` keeps the stored `_id` and untouched fields, sets the body
field and `updatedAt`. -/
theorem put_strips_id_and_frames_witness :
    ∃ d', putHuespedHandler
        (some ⟨[[("_id", JsonVal.oid "aaaaaaaaaaaaaaaaaaaaaaaa"),
                 ("nombre", JsonVal.str "Ana"), ("saldo", JsonVal.num 100)]], [], []⟩)
        "aaaaaaaaaaaaaaaaaaaaaaaa"
        [("_id", JsonVal.str "evil"), ("nombre", JsonVal.str "Bea")] 7
        = (⟨200, RespBody.writeOk none "Huésped actualizado exitosamente"⟩,
           some ⟨[d'], [], []⟩) ∧
      getField d' "_id" = some (JsonVal.oid "aaaaaaaaaaaaaaaaaaaaaaaa") ∧
      getField d' "updatedAt" = some (JsonVal.date 7) ∧
      getField d' "nombre" = some (JsonVal.str "Bea") ∧
      getField d' "saldo" = some (JsonVal.num 100) := by
  obtain ⟨d', h1, h2, h3, h4⟩ := put_strips_id_and_frames
    ⟨[[("_id", JsonVal.oid "aaaaaaaaaaaaaaaaaaaaaaaa"),
       ("nombre", JsonVal.str "Ana"), ("saldo", JsonVal.num 100)]], [], []⟩
    "aaaaaaaaaaaaaaaaaaaaaaaa"
    [("_id", JsonVal.str "evil"), ("nombre", JsonVal.str "Bea")] 7
    [] []
    [("_id", JsonVal.oid "aaaaaaaaaaaaaaaaaaaaaaaa"),
     ("nombre", JsonVal.str "Ana"), ("saldo", JsonVal.num 100)]
    (by decide) (by decide) (by decide) rfl (by simp) (by decide)
  refine ⟨d', by simpa using h1, h2.trans (by decide), h3,
    (h4 "nombre" (by decide) (by decide)).trans (by decide),
    (h4 "saldo" (by decide) (by decide)).trans (by decide)⟩

/-- C5: a guest created by `POST /api/huespedes` and then soft-deleted via
`DELETE /api/huespedes/:id` still exists in the store with `activo = false`
and `deletedAt` set; the active listing `GET /api/huespedes` excludes it,
while `GET /api/huespedes/:id` still returns it. -/
theorem soft_delete_semantics (db : DB) (body : Doc) (newId : String) (now delNow : Nat)
    (hvalid : isValidObjectId newId = true)
    (hfresh : ∀ x ∈ db.huespedes, getField x "_id" ≠ some (JsonVal.oid newId))
    (hnoid : getField body "_id" = none) :
    ∃ db₁ db₂ d,
      (postHuespedHandler (some db) body newId now).2 = some db₁ ∧
      deleteHuespedHandler (some db₁) newId delNow
        = (⟨200, RespBody.writeOk none "Huésped eliminado exitosamente"⟩, some db₂) ∧
      db₂.huespedes = db.huespedes ++ [d] ∧
      getField d "_id" = some (JsonVal.oid newId) ∧
      getField d "activo" = some (JsonVal.bool false) ∧
      getField d "deletedAt" = some (JsonVal.date delNow) ∧
      (∃ l, getHuespedesHandler (some db₂) = ⟨200, RespBody.docs l⟩ ∧
        ∀ x ∈ l, getField x "_id" ≠ some (JsonVal.oid newId)) ∧
      getHuespedByIdHandler (some db₂) newId = ⟨200, RespBody.doc d⟩ := by
  have hnv : getField (nuevoHuesped body now) "_id" = none := by
    show getField (setField (setField (setField body
      "fechaRegistro" (JsonVal.str (isoOfTime now)))
      "activo" (JsonVal.bool true))
      "createdAt" (JsonVal.date now)) "_id" = none
    rw [getField_setField_ne _ _ _ _ (by decide),
      getField_setField_ne _ _ _ _ (by decide),
      getField_setField_ne _ _ _ _ (by decide)]
    exact hnoid
  have hg : insertWithId (nuevoHuesped body now) newId
      = setField (nuevoHuesped body now) "_id" (JsonVal.oid newId) := by
    simp [insertWithId, hnv]
  have hgid : getField (insertWithId (nuevoHuesped body now) newId) "_id"
      = some (JsonVal.oid newId) := by
    rw [hg, getField_setField_self]
  have hpre : ∀ x ∈ db.huespedes, matchesId newId x = false := fun x hx =>
    decide_eq_false (hfresh x hx)
  have hgm : matchesId newId (insertWithId (nuevoHuesped body now) newId) = true :=
    decide_eq_true hgid
  have hupd : updateFirst (db.huespedes ++ [insertWithId (nuevoHuesped body now) newId])
      (matchesId newId)
      [("activo", JsonVal.bool false), ("deletedAt", JsonVal.date delNow)]
      = (1, db.huespedes ++ [applySet (insertWithId (nuevoHuesped body now) newId)
          [("activo", JsonVal.bool false), ("deletedAt", JsonVal.date delNow)]]) :=
    updateFirst_split db.huespedes _ [] _ _ hpre hgm
  have hdid : getField (applySet (insertWithId (nuevoHuesped body now) newId)
      [("activo", JsonVal.bool false), ("deletedAt", JsonVal.date delNow)]) "_id"
      = some (JsonVal.oid newId) := by
    show getField (setField (setField _ "activo" (JsonVal.bool false))
      "deletedAt" (JsonVal.date delNow)) "_id" = _
    rw [getField_setField_ne _ _ _ _ (by decide),
      getField_setField_ne _ _ _ _ (by decide)]
    exact hgid
  have hdact : getField (applySet (insertWithId (nuevoHuesped body now) newId)
      [("activo", JsonVal.bool false), ("deletedAt", JsonVal.date delNow)]) "activo"
      = some (JsonVal.bool false) := by
    show getField (setField (setField _ "activo" (JsonVal.bool false))
      "deletedAt" (JsonVal.date delNow)) "activo" = _
    rw [getField_setField_ne _ _ _ _ (by decide), getField_setField_self]
  have hddel : getField (applySet (insertWithId (nuevoHuesped body now) newId)
      [("activo", JsonVal.bool false), ("deletedAt", JsonVal.date delNow)]) "deletedAt"
      = some (JsonVal.date delNow) := by
    show getField (setField (setField _ "activo" (JsonVal.bool false))
      "deletedAt" (JsonVal.date delNow)) "deletedAt" = _
    rw [getField_setField_self]
  refine ⟨_, { db with huespedes := db.huespedes
      ++ [applySet (insertWithId (nuevoHuesped body now) newId)
        [("activo", JsonVal.bool false), ("deletedAt", JsonVal.date delNow)]] },
    applySet (insertWithId (nuevoHuesped body now) newId)
      [("activo", JsonVal.bool false), ("deletedAt", JsonVal.date delNow)],
    rfl, ?_, rfl, hdid, hdact, hddel, ?_, ?_⟩
  · simp [deleteHuespedHandler, hvalid, hupd]
  · refine ⟨_, rfl, ?_⟩
    intro x hx
    have hx' := (List.perm_insertionSort RegDesc _).mem_iff.mp hx
    have hx'' := List.mem_filter.mp hx'
    rcases List.mem_append.mp hx''.1 with hxl | hxr
    · exact hfresh x hxl
    · exfalso
      have h2 := hx''.2
      rw [List.mem_singleton.mp hxr] at h2
      simp [activeP, hdact] at h2
  · have hfind : List.find? (matchesId newId)
        (db.huespedes ++ [applySet (insertWithId (nuevoHuesped body now) newId)
          [("activo", JsonVal.bool false), ("deletedAt", JsonVal.date delNow)]])
        = some (applySet (insertWithId (nuevoHuesped body now) newId)
          [("activo", JsonVal.bool false), ("deletedAt", JsonVal.date delNow)]) :=
      find?_split db.huespedes _ [] _ hpre (decide_eq_true hdid)
    simp [getHuespedByIdHandler, hvalid, findOne, hfind]

/-- C5, witness: create one guest in an empty store, soft-delete it, and
observe it is still retrievable by id with `activo = false`. -/
theorem soft_delete_semantics_witness :
    ∃ db₁ db₂ d,
      (postHuespedHandler (some ⟨[], [], []⟩) [("nombre", JsonVal.str "Ana")]
        "aaaaaaaaaaaaaaaaaaaaaaaa" 1).2 = some db₁ ∧
      deleteHuespedHandler (some db₁) "aaaaaaaaaaaaaaaaaaaaaaaa" 2
        = (⟨200, RespBody.writeOk none "Huésped eliminado exitosamente"⟩, some db₂) ∧
      getField d "activo" = some (JsonVal.bool false) ∧
      getHuespedByIdHandler (some db₂) "aaaaaaaaaaaaaaaaaaaaaaaa"
        = ⟨200, RespBody.doc d⟩ := by
  obtain ⟨db₁, db₂, d, h1, h2, h3, h4, h5, h6, h7, h8⟩ :=
    soft_delete_semantics ⟨[], [], []⟩ [("nombre", JsonVal.str "Ana")]
      "aaaaaaaaaaaaaaaaaaaaaaaa" 1 2 (by decide) (by simp) (by decide)
  exact ⟨db₁, db₂, d, h1, h2, h5, h8⟩

/-- C6, counterexample: for the present-but-empty query value `categoria=`
(the empty string, a specific value different from `todos`), the handler
returns all active products — here a product whose category is
`alimentos`, not the requested empty string — because the JS truthiness
test `categoria && categoria !== 'todos'` sends the empty string down the
no-filter branch. -/
theorem getProductos_empty_categoria_cex :
    getProductosHandler (some ⟨[], [],
        [[("nombre", JsonVal.str "Taco"), ("categoria", JsonVal.str "alimentos"),
          ("activo", JsonVal.bool true)]]⟩) (some "")
      = ⟨200, RespBody.docs [[("nombre", JsonVal.str "Taco"),
          ("categoria", JsonVal.str "alimentos"), ("activo", JsonVal.bool true)]]⟩ ∧
    (some "" : Option String) ≠ some "todos" ∧
    getField [("nombre", JsonVal.str "Taco"), ("categoria", JsonVal.str "alimentos"),
      ("activo", JsonVal.bool true)] "categoria" ≠ some (JsonVal.str "") := by
  decide

/-- C6 (amended): `GET /api/productos` returns, with no `categoria`
parameter or with the non-truthy empty string or `todos`, exactly the
active products of all categories; with any other non-empty `categoria`
value, exactly the active products of that category; in all cases sorted
ascending by category and then by name (under the BSON field comparison). -/
theorem getProductos_filter_sorted (db : DB) (categoria : Option String) :
    ∃ l, getProductosHandler (some db) categoria = ⟨200, RespBody.docs l⟩ ∧
      List.Sorted ProdLe l ∧
      (∀ c, categoria = some c → c ≠ "" → c ≠ "todos" →
        List.Perm l (db.productos.filter (fun d =>
          decide (getField d "categoria" = some (JsonVal.str c)) && activeP d))) ∧
      ((categoria = none ∨ categoria = some "" ∨ categoria = some "todos") →
        List.Perm l (db.productos.filter activeP)) := by
  refine ⟨_, rfl, List.sorted_insertionSort ProdLe _, ?_, ?_⟩
  · intro c hc hne hnt
    subst hc
    have hf : productosFiltro (some c) = fun d =>
        decide (getField d "categoria" = some (JsonVal.str c)) && activeP d := by
      simp [productosFiltro, hne, hnt]
    rw [hf] at *
    exact List.perm_insertionSort ProdLe _
  · rintro (rfl | rfl | rfl)
    · exact List.perm_insertionSort ProdLe _
    · have hf : productosFiltro (some "") = activeP := rfl
      rw [hf]
      exact List.perm_insertionSort ProdLe _
    · have hf : productosFiltro (some "todos") = activeP := rfl
      rw [hf]
      exact List.perm_insertionSort ProdLe _

/-- C6, witness: listing category `bebidas` over a two-category catalog
returns exactly the active `bebidas` product. -/
theorem getProductos_filter_sorted_witness :
    ∃ l, getProductosHandler (some ⟨[], [],
        [[("categoria", JsonVal.str "bebidas"), ("activo", JsonVal.bool true)],
         [("categoria", JsonVal.str "spa"), ("activo", JsonVal.bool true)]]⟩)
        (some "bebidas") = ⟨200, RespBody.docs l⟩ ∧
      List.Perm l [[("categoria", JsonVal.str "bebidas"), ("activo", JsonVal.bool true)]] := by
  obtain ⟨l, h1, h2, h3, h4⟩ := getProductos_filter_sorted ⟨[], [],
    [[("categoria", JsonVal.str "bebidas"), ("activo", JsonVal.bool true)],
     [("categoria", JsonVal.str "spa"), ("activo", JsonVal.bool true)]]⟩ (some "bebidas")
  refine ⟨l, h1, (h3 "bebidas" rfl (by decide) (by decide)).trans (by decide)⟩

/-- Inserting the generated id touches only the `_id` field. -/
theorem getField_insertWithId_ne (d : Doc) (newId : String) (k : String)
    (h : k ≠ "_id") :
    getField (insertWithId d newId) k = getField d k := by
  by_cases h0 : getField d "_id" = none
  · rw [insertWithId, if_pos h0, getField_setField_ne _ _ _ _ h]
  · rw [insertWithId, if_neg h0]

/-- C7: the transaction stored by `POST /api/transacciones` carries the
server-assigned `fecha` (the request body cannot override it, since the
server value is written after the body spread), and both transaction list
endpoints return their documents sorted descending by `fecha`. -/
theorem transaccion_fecha_server_and_sorted (db : DB) (body : Doc) (newId : String)
    (now : Nat) (huespedId : String) :
    (∃ d, (postTransaccionHandler (some db) body newId now).2
        = some { db with transacciones := db.transacciones ++ [d] } ∧
      getField d "fecha" = some (JsonVal.str (isoOfTime now))) ∧
    (∃ l, getTransaccionesHandler (some db) = ⟨200, RespBody.docs l⟩ ∧
      List.Sorted FechaDesc l ∧ List.Perm l db.transacciones) ∧
    (∃ l, getTransaccionesByHuespedHandler (some db) huespedId
        = ⟨200, RespBody.docs l⟩ ∧
      List.Sorted FechaDesc l ∧
      List.Perm l (db.transacciones.filter (fun d =>
        decide (getField d "huespedId" = some (JsonVal.str huespedId))))) := by
  refine ⟨⟨insertWithId (nuevaTransaccion body now) newId, rfl, ?_⟩,
    ⟨_, rfl, List.sorted_insertionSort _ _, List.perm_insertionSort _ _⟩,
    ⟨_, rfl, List.sorted_insertionSort _ _, List.perm_insertionSort _ _⟩⟩
  rw [getField_insertWithId_ne _ _ _ (by decide)]
  show getField (setField (setField body "fecha" (JsonVal.str (isoOfTime now)))
    "createdAt" (JsonVal.date now)) "fecha" = _
  rw [getField_setField_ne _ _ _ _ (by decide), getField_setField_self]

/-- C8: for a well-formed guest id matching no stored document,
`GET /api/huespedes/:id` answers 404 with `Huésped no encontrado`, and
`PUT`/`DELETE` on that id (zero matched documents) also answer 404 with the
same descriptive message, leaving the store unchanged. -/
theorem notfound_404_handlers (db : DB) (id : String) (body : Doc) (now : Nat)
    (hvalid : isValidObjectId id = true)
    (hnone : ∀ d ∈ db.huespedes, getField d "_id" ≠ some (JsonVal.oid id)) :
    getHuespedByIdHandler (some db) id
      = ⟨404, RespBody.err "Huésped no encontrado"⟩ ∧
    putHuespedHandler (some db) id body now
      = (⟨404, RespBody.err "Huésped no encontrado"⟩, some db) ∧
    deleteHuespedHandler (some db) id now
      = (⟨404, RespBody.err "Huésped no encontrado"⟩, some db) := by
  have hp : ∀ d ∈ db.huespedes, matchesId id d = false := fun d hd =>
    decide_eq_false (hnone d hd)
  have hfind : List.find? (matchesId id) db.huespedes = none := find?_no_match _ _ hp
  have hupd1 := updateFirst_no_match db.huespedes (matchesId id) (putSetDoc body now) hp
  have hupd2 := updateFirst_no_match db.huespedes (matchesId id)
    [("activo", JsonVal.bool false), ("deletedAt", JsonVal.date now)] hp
  refine ⟨?_, ?_, ?_⟩
  · simp [getHuespedByIdHandler, hvalid, findOne, hfind]
  · simp [putHuespedHandler, hvalid, hupd1]
  · simp [deleteHuespedHandler, hvalid, hupd2]

/-- C8, witness: a well-formed hex id on the empty store answers 404. -/
theorem notfound_404_handlers_witness :
    getHuespedByIdHandler (some ⟨[], [], []⟩) "0123456789abcdef01234567"
      = ⟨404, RespBody.err "Huésped no encontrado"⟩ :=
  (notfound_404_handlers ⟨[], [], []⟩ "0123456789abcdef01234567" [] 0
    (by decide) (by simp)).1

/-- C9: the guest stored by `POST /api/huespedes` always has `activo = true`,
a server-set `fechaRegistro` and a server-set `createdAt`, for every request
body — client-supplied values for these fields are overwritten, because the
server fields are written after the body spread; in contrast, product
creation honors a client-supplied `activo: false`. -/
theorem postHuesped_server_fields (db : DB) (body bodyP : Doc) (newId : String)
    (now : Nat) :
    (∃ d, (postHuespedHandler (some db) body newId now).2
        = some { db with huespedes := db.huespedes ++ [d] } ∧
      getField d "activo" = some (JsonVal.bool true) ∧
      getField d "fechaRegistro" = some (JsonVal.str (isoOfTime now)) ∧
      getField d "createdAt" = some (JsonVal.date now)) ∧
    (∃ p, (postProductoHandler (some db)
        (setField bodyP "activo" (JsonVal.bool false)) newId now).2
        = some { db with productos := db.productos ++ [p] } ∧
      getField p "activo" = some (JsonVal.bool false)) := by
  constructor
  · refine ⟨insertWithId (nuevoHuesped body now) newId, rfl, ?_, ?_, ?_⟩
    · rw [getField_insertWithId_ne _ _ _ (by decide)]
      show getField (setField (setField (setField body
        "fechaRegistro" (JsonVal.str (isoOfTime now)))
        "activo" (JsonVal.bool true))
        "createdAt" (JsonVal.date now)) "activo" = _
      rw [getField_setField_ne _ _ _ _ (by decide), getField_setField_self]
    · rw [getField_insertWithId_ne _ _ _ (by decide)]
      show getField (setField (setField (setField body
        "fechaRegistro" (JsonVal.str (isoOfTime now)))
        "activo" (JsonVal.bool true))
        "createdAt" (JsonVal.date now)) "fechaRegistro" = _
      rw [getField_setField_ne _ _ _ _ (by decide),
        getField_setField_ne _ _ _ _ (by decide), getField_setField_self]
    · rw [getField_insertWithId_ne _ _ _ (by decide)]
      show getField (setField (setField (setField body
        "fechaRegistro" (JsonVal.str (isoOfTime now)))
        "activo" (JsonVal.bool true))
        "createdAt" (JsonVal.date now)) "createdAt" = _
      rw [getField_setField_self]
  · refine ⟨insertWithId (nuevoProducto (setField bodyP "activo" (JsonVal.bool false))
      now) newId, rfl, ?_⟩
    rw [getField_insertWithId_ne _ _ _ (by decide)]
    show getField (setField (setField (setField
      (setField bodyP "activo" (JsonVal.bool false))
      "activo" (coalesce (getField (setField bodyP "activo" (JsonVal.bool false))
        "activo") (JsonVal.bool true)))
      "createdAt" (JsonVal.date now))
      "updatedAt" (JsonVal.date now)) "activo" = _
    rw [getField_setField_ne _ _ _ _ (by decide),
      getField_setField_ne _ _ _ _ (by decide), getField_setField_self,
      getField_setField_self]
    rfl

/-- C10: for `POST /api/productos`, a body whose `activo` is present with
any non-null value — including falsy values such as `false`, `0` or the
empty string — stores exactly that value; only a null or absent `activo` is
defaulted to `true` (nullish coalescing). -/
theorem postProducto_activo_coalesce (db : DB) (body : Doc) (newId : String)
    (now : Nat) (v : JsonVal) :
    (∃ p, (postProductoHandler (some db) (setField body "activo" v) newId now).2
        = some { db with productos := db.productos ++ [p] } ∧
      getField p "activo"
        = some (if v = JsonVal.null then JsonVal.bool true else v)) ∧
    (∃ p, (postProductoHandler (some db) (eraseField body "activo") newId now).2
        = some { db with productos := db.productos ++ [p] } ∧
      getField p "activo" = some (JsonVal.bool true)) := by
  constructor
  · refine ⟨insertWithId (nuevoProducto (setField body "activo" v) now) newId, rfl, ?_⟩
    rw [getField_insertWithId_ne _ _ _ (by decide)]
    show getField (setField (setField (setField
      (setField body "activo" v)
      "activo" (coalesce (getField (setField body "activo" v) "activo")
        (JsonVal.bool true)))
      "createdAt" (JsonVal.date now))
      "updatedAt" (JsonVal.date now)) "activo" = _
    rw [getField_setField_ne _ _ _ _ (by decide),
      getField_setField_ne _ _ _ _ (by decide), getField_setField_self,
      getField_setField_self]
    cases v <;> simp [coalesce]
  · refine ⟨insertWithId (nuevoProducto (eraseField body "activo") now) newId, rfl, ?_⟩
    rw [getField_insertWithId_ne _ _ _ (by decide)]
    show getField (setField (setField (setField
      (eraseField body "activo")
      "activo" (coalesce (getField (eraseField body "activo") "activo")
        (JsonVal.bool true)))
      "createdAt" (JsonVal.date now))
      "updatedAt" (JsonVal.date now)) "activo" = _
    rw [getField_setField_ne _ _ _ _ (by decide),
      getField_setField_ne _ _ _ _ (by decide), getField_setField_self,
      getField_eraseField_self]
    simp [coalesce]

end Cashless
